import Mathlib

/-!
Shallow embedding of the peer reputation engine from
`crates/net/network-types/src/peers/mod.rs` of the reth networking layer,
together with the supporting types (`PeerConnectionState`, `PeerKind`,
`ReputationChangeOutcome`, `ReputationChangeKind`, the reputation constants and
`NodeRecord`) that live in sibling modules of the same repository and are
modelled from the specification where their source is not available.
Rust `i32` values are embedded as `Int` with explicit saturation at the `i32`
bounds where the source uses saturating arithmetic.
-/

namespace RethPeers

/-- The minimum of Rust `i32`, that is `-2^31`. -/
def I32_MIN : Int := -2147483648

/-- The maximum of Rust `i32`, that is `2^31 - 1`. -/
def I32_MAX : Int := 2147483647

/-- Rust `i32::saturating_add`: the integer sum clamped to `[I32_MIN, I32_MAX]`
instead of wrapping. -/
def saturating_add (a b : Int) : Int := max I32_MIN (min I32_MAX (a + b))

/-- Modelled from the spec: the configured default reputation of a peer.
The constant lives in the repository module `peers/reputation.rs`, which is not
part of the available source; the spec's scenario section fixes the default at 0
("a peer at default reputation 0"). -/
def DEFAULT_REPUTATION : Int := 0

/-- Modelled from the spec: the ban threshold below which a peer counts as
banned. The constant lives in `peers/reputation.rs`, which is not part of the
available source; the spec's scenario section uses a ban threshold of -50
("a delta of −60 against a ban threshold of −50"). -/
def BANNED_REPUTATION : Int := -50

/-- Modelled from the spec: `is_banned_reputation` from `peers/reputation.rs`
(not in the available source). "Ban threshold: reputation value below which a
peer is treated as banned"; `is_banned()` is "reputation below threshold". -/
def is_banned_reputation (reputation : Int) : Bool :=
  reputation < BANNED_REPUTATION

/-- Modelled from the spec: the connection-state machine of `peers/state.rs`
(not in the available source). States per spec §4.3: Idle,
Connecting-Outbound, Connecting-Inbound, Connected, Disconnecting; initial
state Idle. -/
inductive PeerConnectionState where
  | idle
  | connectingOut
  | connectingIn
  | connected
  | disconnecting
deriving DecidableEq, Repr

instance : Inhabited PeerConnectionState := ⟨PeerConnectionState.idle⟩

/-- Modelled from the spec: "`is_connected()` is true only in the `Connected`
state". -/
def PeerConnectionState.is_connected : PeerConnectionState → Bool
  | .connected => true
  | _ => false

/-- Modelled from the spec: "`Connected → Disconnecting` (local or remote close
requested)"; "`disconnect()` is a no-op if not currently `Connected`". -/
def PeerConnectionState.disconnect : PeerConnectionState → PeerConnectionState
  | .connected => .disconnecting
  | s => s

/-- Modelled from the spec: trust classes of `peers/kind.rs` (not in the
available source): Basic (the default), Static, Trusted. -/
inductive PeerKind where
  | basic
  | static
  | trusted
deriving DecidableEq, Repr

instance : Inhabited PeerKind := ⟨PeerKind.basic⟩

/-- Modelled from the spec: the outcome enumeration of `peers/reputation.rs`
(not in the available source): "for every reputation update, one of
{None, Ban, Unban, DisconnectAndBan}". -/
inductive ReputationChangeOutcome where
  | none
  | ban
  | unban
  | disconnectAndBan
deriving DecidableEq, Repr

/-- Modelled from the spec: the closed enumeration of signal kinds consumed
from the transport layer (`peers/reputation.rs`, not in the available source):
"e.g. handshake failure, protocol violation, peer dropped the connection, peer
sent useful data, dial timeout". -/
inductive ReputationChangeKind where
  | badProtocol
  | droppedDuringHandshake
  | failedToConnect
  | timeout
  | usefulData
deriving DecidableEq, Repr

/-- The reachable network endpoint of a peer (`PeerAddr`, from the sibling
module `peers/addr.rs`; opaque for the claims at hand, so embedded as a
single abstract endpoint value). -/
structure PeerAddr where
  endpoint : Nat
deriving DecidableEq, Repr

/-- A fork identity announced via discovery (`ForkId` of `alloy_eip2124`;
opaque for the claims at hand: a hash and a next-fork block value). -/
structure ForkId where
  hash : Nat
  next : Nat
deriving DecidableEq, Repr

/-- The identity key of a peer (`PeerId` of `reth_network_peers`), opaque. -/
def PeerId := Nat
deriving DecidableEq, Repr

/-- A node record (`NodeRecord` of `reth_network_peers`): identity key plus
reachable network endpoint — address, session port and discovery port. -/
structure NodeRecord where
  address : Nat
  tcp_port : Nat
  udp_port : Nat
  id : PeerId
deriving DecidableEq, Repr

/-- The per-peer mutable record, field for field from `struct Peer` in
`peers/mod.rs` (Rust `u8` counter embedded as `Nat`; `Option<Box<ForkId>>`
as `Option ForkId`, the box being representation only). -/
structure Peer where
  addr : PeerAddr
  reputation : Int
  state : PeerConnectionState
  fork_id : Option ForkId
  remove_after_disconnect : Bool
  kind : PeerKind
  backed_off : Bool
  severe_backoff_counter : Nat
deriving DecidableEq, Repr

/-- `Peer::with_state`: constructs a peer with the given address and state,
default reputation, no fork id, all flags cleared (from `peers/mod.rs`). -/
def Peer.with_state (addr : PeerAddr) (state : PeerConnectionState) : Peer :=
  { addr := addr
    state := state
    reputation := DEFAULT_REPUTATION
    fork_id := none
    remove_after_disconnect := false
    kind := default
    backed_off := false
    severe_backoff_counter := 0 }

/-- `Peer::new`: `Self::with_state(addr, Default::default())`, the default
connection state being Idle. -/
def Peer.new (addr : PeerAddr) : Peer :=
  Peer.with_state addr default

/-- `Peer::trusted`: a new peer with kind overridden to Trusted. -/
def Peer.trusted (addr : PeerAddr) : Peer :=
  { Peer.new addr with kind := PeerKind.trusted }

/-- `Peer::with_kind`: a new peer with kind overridden to the given kind. -/
def Peer.with_kind (addr : PeerAddr) (kind : PeerKind) : Peer :=
  { Peer.new addr with kind := kind }

/-- `Peer::is_banned`: true iff the reputation is below the ban threshold. -/
def Peer.is_banned (p : Peer) : Bool :=
  is_banned_reputation p.reputation

/-- `Peer::reset_reputation`: sets the reputation to the default and returns
`ReputationChangeOutcome::None`; the mutated peer is returned alongside the
outcome (Rust `&mut self`). -/
def Peer.reset_reputation (p : Peer) : ReputationChangeOutcome × Peer :=
  (ReputationChangeOutcome.none, { p with reputation := DEFAULT_REPUTATION })

/-- `Peer::unban`: resets the reputation to the default. The Rust signature
`pub const fn unban(&mut self)` returns the unit type, not an outcome, so the
embedding is a plain state transformer. -/
def Peer.unban (p : Peer) : Peer :=
  { p with reputation := DEFAULT_REPUTATION }

/-- The `ReputationChangeOutcome` value returned by `Peer::unban`, if any.
In the source `unban`'s return type is `()`: it returns no outcome value at
all, recorded here as `Option.none` (a function returning outcome `o` would
be recorded as `some o`, as `reset_reputation` returns
`some ReputationChangeOutcome.none`). -/
def Peer.unban_returned_outcome : Option ReputationChangeOutcome :=
  Option.none

/-- `Peer::apply_reputation` from `peers/mod.rs`: saturating-adds the delta to
the reputation, then returns `DisconnectAndBan` (disconnecting the state) if
connected and now banned, `Ban` on a fresh downward threshold crossing with no
session, `Unban` on an upward crossing, `None` otherwise. The `kind` argument
is consumed only by trace logging in the source. The mutated peer is returned
alongside the outcome (Rust `&mut self`). -/
def Peer.apply_reputation (p : Peer) (reputation : Int)
    (kind : ReputationChangeKind) : ReputationChangeOutcome × Peer :=
  let previous := p.reputation
  let q : Peer := { p with reputation := saturating_add previous reputation }
  if q.state.is_connected && q.is_banned then
    (ReputationChangeOutcome.disconnectAndBan, { q with state := q.state.disconnect })
  else if q.is_banned && !is_banned_reputation previous then
    (ReputationChangeOutcome.ban, q)
  else if !q.is_banned && is_banned_reputation previous then
    (ReputationChangeOutcome.unban, q)
  else
    (ReputationChangeOutcome.none, q)

/-- `Peer::is_trusted`. -/
def Peer.is_trusted (p : Peer) : Bool :=
  p.kind = PeerKind.trusted

/-- `Peer::is_static`. -/
def Peer.is_static (p : Peer) : Bool :=
  p.kind = PeerKind.static

/-- `struct PersistedPeerInfo` from `peers/mod.rs`. -/
structure PersistedPeerInfo where
  record : NodeRecord
  kind : PeerKind
  fork_id : Option ForkId
  reputation : Int
deriving DecidableEq, Repr

/-- `PersistedPeerInfo::peer_id`: the identity key embedded in the record. -/
def PersistedPeerInfo.peer_id (p : PersistedPeerInfo) : PeerId :=
  p.record.id

/-- `PersistedPeerInfo::from_node_record`: default metadata around a bare
record. -/
def PersistedPeerInfo.from_node_record (record : NodeRecord) : PersistedPeerInfo :=
  { record := record
    kind := PeerKind.basic
    fork_id := none
    reputation := DEFAULT_REPUTATION }

/-- Applies a whole sequence of reputation changes in order, returning the
final peer (folding `Peer::apply_reputation`). -/
def Peer.applyAll (p : Peer) : List (Int × ReputationChangeKind) → Peer
  | [] => p
  | (d, k) :: rest => ((p.apply_reputation d k).2).applyAll rest

/-! ### Helper lemmas -/

/-- A state is connected exactly when it is the `connected` state. -/
lemma is_connected_iff (s : PeerConnectionState) :
    s.is_connected = true ↔ s = PeerConnectionState.connected := by
  cases s <;> simp [PeerConnectionState.is_connected]

/-- Disconnecting the connected state yields the disconnecting state. -/
lemma disconnect_connected :
    PeerConnectionState.connected.disconnect = PeerConnectionState.disconnecting := rfl

/-- A concrete connected peer at the default reputation, used to instantiate
hypotheses of the universally quantified theorems. -/
def examplePeer : Peer :=
  { addr := ⟨0⟩
    reputation := 0
    state := PeerConnectionState.connected
    fork_id := none
    remove_after_disconnect := false
    kind := PeerKind.basic
    backed_off := false
    severe_backoff_counter := 0 }

/-! ### Claim theorems -/

/-- C1: `apply_reputation` returns exactly one of the four outcomes:
`DisconnectAndBan` iff the peer's state is connected and the new saturated
score is below the ban threshold; `Ban` iff the previous score was not below
the threshold, the new score is below it, and no live session exists; `Unban`
iff the previous score was below the threshold and the new score is at/above
it; `None` otherwise; and in the `DisconnectAndBan` case the connection state
is transitioned to disconnecting within the same call. -/
theorem apply_reputation_outcome_spec (p : Peer) (d : Int)
    (k : ReputationChangeKind) :
    ((p.apply_reputation d k).1 = ReputationChangeOutcome.disconnectAndBan ↔
       (p.state.is_connected = true ∧
        is_banned_reputation (saturating_add p.reputation d) = true))
    ∧ ((p.apply_reputation d k).1 = ReputationChangeOutcome.ban ↔
       (is_banned_reputation p.reputation = false ∧
        is_banned_reputation (saturating_add p.reputation d) = true ∧
        p.state.is_connected = false))
    ∧ ((p.apply_reputation d k).1 = ReputationChangeOutcome.unban ↔
       (is_banned_reputation p.reputation = true ∧
        is_banned_reputation (saturating_add p.reputation d) = false))
    ∧ ((p.apply_reputation d k).1 = ReputationChangeOutcome.none ↔
       (¬(p.state.is_connected = true ∧
          is_banned_reputation (saturating_add p.reputation d) = true) ∧
        ¬(is_banned_reputation p.reputation = false ∧
          is_banned_reputation (saturating_add p.reputation d) = true ∧
          p.state.is_connected = false) ∧
        ¬(is_banned_reputation p.reputation = true ∧
          is_banned_reputation (saturating_add p.reputation d) = false)))
    ∧ ((p.apply_reputation d k).1 = ReputationChangeOutcome.disconnectAndBan →
       (p.apply_reputation d k).2.state = PeerConnectionState.disconnecting) := by
  rcases hs : p.state <;>
    cases hb : is_banned_reputation (saturating_add p.reputation d) <;>
      cases hp : is_banned_reputation p.reputation <;>
        simp [Peer.apply_reputation, Peer.is_banned, PeerConnectionState.is_connected,
          PeerConnectionState.disconnect, hs, hb, hp]

/-- C1 witness: the spec's scenario — a connected peer at default reputation 0
receiving a delta of −60 yields `DisconnectAndBan` and the state becomes
disconnecting. -/
theorem apply_reputation_outcome_spec_witness :
    ((examplePeer.apply_reputation (-60) ReputationChangeKind.badProtocol).1 =
        ReputationChangeOutcome.disconnectAndBan ↔
      (examplePeer.state.is_connected = true ∧
       is_banned_reputation (saturating_add examplePeer.reputation (-60)) = true))
    ∧ ((examplePeer.apply_reputation (-60) ReputationChangeKind.badProtocol).1 =
        ReputationChangeOutcome.disconnectAndBan →
       (examplePeer.apply_reputation (-60) ReputationChangeKind.badProtocol).2.state =
        PeerConnectionState.disconnecting) :=
  ⟨(apply_reputation_outcome_spec examplePeer (-60) ReputationChangeKind.badProtocol).1,
   (apply_reputation_outcome_spec examplePeer (-60) ReputationChangeKind.badProtocol).2.2.2.2⟩

/-- C4 counterexample: the claim states that `unban()` returns the `None`
outcome, but in the source `unban`'s return type is the unit type `()`: it
returns no `ReputationChangeOutcome` value at all (unlike `reset_reputation`,
which does return `ReputationChangeOutcome::None`). -/
theorem unban_no_outcome_counterexample :
    ¬ (Peer.unban_returned_outcome = some ReputationChangeOutcome.none) := by
  decide

/-- C4 (amended): `unban()` and `reset_reputation()` both set the reputation
back to the configured default value; `reset_reputation()` returns the `None`
outcome unconditionally, regardless of the prior score, while `unban()`
returns no outcome value. -/
theorem unban_reset_reputation_default (p : Peer) :
    (p.unban).reputation = DEFAULT_REPUTATION
    ∧ (p.reset_reputation).2.reputation = DEFAULT_REPUTATION
    ∧ (p.reset_reputation).1 = ReputationChangeOutcome.none
    ∧ Peer.unban_returned_outcome = Option.none := by
  simp [Peer.unban, Peer.reset_reputation, Peer.unban_returned_outcome]

/-- C5: `unban()` resets only the reputation field to the default; the
connection state and every other field are unchanged, and afterwards
`is_banned()` is false. -/
theorem unban_frame (p : Peer) :
    (p.unban).reputation = DEFAULT_REPUTATION
    ∧ (p.unban).is_banned = false
    ∧ (p.unban).addr = p.addr
    ∧ (p.unban).state = p.state
    ∧ (p.unban).fork_id = p.fork_id
    ∧ (p.unban).remove_after_disconnect = p.remove_after_disconnect
    ∧ (p.unban).kind = p.kind
    ∧ (p.unban).backed_off = p.backed_off
    ∧ (p.unban).severe_backoff_counter = p.severe_backoff_counter := by
  refine ⟨rfl, ?_, rfl, rfl, rfl, rfl, rfl, rfl, rfl⟩
  simp [Peer.unban, Peer.is_banned, is_banned_reputation, DEFAULT_REPUTATION,
    BANNED_REPUTATION]

/-- C6 counterexample: the claim states that `with_state(address, state)`
produces a peer with a disconnected state for every state argument; but
`with_state` stores the given state, so passing the connected state yields a
peer whose state is connected. -/
theorem with_state_not_disconnected_counterexample :
    (Peer.with_state ⟨0⟩ PeerConnectionState.connected).state =
      PeerConnectionState.connected
    ∧ (Peer.with_state ⟨0⟩ PeerConnectionState.connected).state.is_connected = true := by
  exact ⟨rfl, rfl⟩

/-- C6 (amended): `new(address)` and `with_kind(address, kind)` produce a peer
in the disconnected initial (idle) state, while `with_state(address, state)`
stores the given state argument; all three produce reputation equal to the
configured default, no fork announcement, `remove_after_disconnect = false`,
`backed_off = false`, and `severe_backoff_counter = 0`. -/
theorem constructors_defaults (addr : PeerAddr) (kind : PeerKind)
    (state : PeerConnectionState) :
    ((Peer.new addr).state = PeerConnectionState.idle
     ∧ (Peer.new addr).state.is_connected = false
     ∧ (Peer.new addr).reputation = DEFAULT_REPUTATION
     ∧ (Peer.new addr).fork_id = none
     ∧ (Peer.new addr).remove_after_disconnect = false
     ∧ (Peer.new addr).backed_off = false
     ∧ (Peer.new addr).severe_backoff_counter = 0)
    ∧ ((Peer.with_kind addr kind).state = PeerConnectionState.idle
     ∧ (Peer.with_kind addr kind).state.is_connected = false
     ∧ (Peer.with_kind addr kind).reputation = DEFAULT_REPUTATION
     ∧ (Peer.with_kind addr kind).fork_id = none
     ∧ (Peer.with_kind addr kind).remove_after_disconnect = false
     ∧ (Peer.with_kind addr kind).backed_off = false
     ∧ (Peer.with_kind addr kind).severe_backoff_counter = 0)
    ∧ ((Peer.with_state addr state).state = state
     ∧ (Peer.with_state addr state).reputation = DEFAULT_REPUTATION
     ∧ (Peer.with_state addr state).fork_id = none
     ∧ (Peer.with_state addr state).remove_after_disconnect = false
     ∧ (Peer.with_state addr state).backed_off = false
     ∧ (Peer.with_state addr state).severe_backoff_counter = 0) := by
  simp [Peer.new, Peer.with_kind, Peer.with_state, PeerConnectionState.is_connected,
    default]

/-- C8: `from_node_record(record)` builds a `PersistedPeerInfo` whose record is
the given record, whose kind is Basic, whose fork announcement is absent, and
whose reputation is the configured default; `peer_id()` on the result returns
the identity key embedded in the record. -/
theorem from_node_record_spec (record : NodeRecord) :
    (PersistedPeerInfo.from_node_record record).record = record
    ∧ (PersistedPeerInfo.from_node_record record).kind = PeerKind.basic
    ∧ (PersistedPeerInfo.from_node_record record).fork_id = none
    ∧ (PersistedPeerInfo.from_node_record record).reputation = DEFAULT_REPUTATION
    ∧ (PersistedPeerInfo.from_node_record record).peer_id = record.id := by
  exact ⟨rfl, rfl, rfl, rfl, rfl⟩

/-- The new reputation after `apply_reputation` is always the saturating sum
of the previous reputation and the delta, whatever branch is taken. -/
lemma apply_reputation_reputation (p : Peer) (d : Int) (k : ReputationChangeKind) :
    ((p.apply_reputation d k).2).reputation = saturating_add p.reputation d := by
  simp only [Peer.apply_reputation]
  split_ifs <;> rfl

/-- The saturating sum always lies within the `i32` range. -/
lemma saturating_add_range (a b : Int) :
    I32_MIN ≤ saturating_add a b ∧ saturating_add a b ≤ I32_MAX := by
  unfold saturating_add
  refine ⟨le_max_left _ _, max_le (by norm_num [I32_MIN, I32_MAX]) (min_le_left _ _)⟩

/-- Any sequence of reputation changes keeps the reputation within the `i32`
range, provided it started there. -/
lemma applyAll_range (ds : List (Int × ReputationChangeKind)) :
    ∀ p : Peer, I32_MIN ≤ p.reputation → p.reputation ≤ I32_MAX →
      I32_MIN ≤ (p.applyAll ds).reputation ∧ (p.applyAll ds).reputation ≤ I32_MAX := by
  induction ds with
  | nil => exact fun p h1 h2 => ⟨h1, h2⟩
  | cons hd tl ih =>
      intro p h1 h2
      obtain ⟨d, k⟩ := hd
      simp only [Peer.applyAll]
      have hr := apply_reputation_reputation p d k
      have hb := saturating_add_range p.reputation d
      exact ih _ (by rw [hr]; exact hb.1) (by rw [hr]; exact hb.2)

/-- C3: starting from any reputation within the `i32` range, every sequence of
`apply_reputation` calls keeps the reputation within `[I32_MIN, I32_MAX]`, and
each call sets the reputation to the exact integer sum of the previous value
and the delta clamped to that range (saturating, never wrapping). -/
theorem apply_reputation_saturates (p : Peer)
    (h1 : I32_MIN ≤ p.reputation) (h2 : p.reputation ≤ I32_MAX) :
    (∀ d : Int, ∀ k : ReputationChangeKind,
      ((p.apply_reputation d k).2).reputation =
        max I32_MIN (min I32_MAX (p.reputation + d)))
    ∧ ∀ ds : List (Int × ReputationChangeKind),
        I32_MIN ≤ (p.applyAll ds).reputation
        ∧ (p.applyAll ds).reputation ≤ I32_MAX := by
  refine ⟨fun d k => ?_, fun ds => applyAll_range ds p h1 h2⟩
  rw [apply_reputation_reputation]
  rfl

/-- C3 witness: a peer at reputation 0 stays within the `i32` range, and a
delta of −60 sets the reputation to the clamped sum −60. -/
theorem apply_reputation_saturates_witness :
    (I32_MIN ≤ examplePeer.reputation ∧ examplePeer.reputation ≤ I32_MAX)
    ∧ ((examplePeer.apply_reputation (-60) ReputationChangeKind.timeout).2).reputation =
        max I32_MIN (min I32_MAX (examplePeer.reputation + (-60)))
    ∧ (I32_MIN ≤
        (examplePeer.applyAll [((-60 : Int), ReputationChangeKind.timeout)]).reputation
       ∧ (examplePeer.applyAll [((-60 : Int), ReputationChangeKind.timeout)]).reputation
          ≤ I32_MAX) :=
  ⟨⟨by decide, by decide⟩,
   (apply_reputation_saturates examplePeer (by decide) (by decide)).1 (-60)
     ReputationChangeKind.timeout,
   (apply_reputation_saturates examplePeer (by decide) (by decide)).2
     [((-60 : Int), ReputationChangeKind.timeout)]⟩

/-- C7: the reputation engine is independent of the peer's trust class — for
two peers identical except for `kind`, `apply_reputation` yields the same
outcome and the same new reputation — and a Trusted-kind peer whose reputation
falls below the ban threshold still reports `is_banned() = true` at the data
level. -/
theorem reputation_engine_kind_blind (p : Peer) (k0 : PeerKind) (d : Int)
    (k : ReputationChangeKind) :
    (({ p with kind := k0 } : Peer).apply_reputation d k).1 = (p.apply_reputation d k).1
    ∧ (({ p with kind := k0 } : Peer).apply_reputation d k).2.reputation =
        (p.apply_reputation d k).2.reputation
    ∧ (p.kind = PeerKind.trusted → p.reputation < BANNED_REPUTATION →
        p.is_banned = true) := by
  refine ⟨?_, ?_, fun _ h2 => ?_⟩
  · rcases hs : p.state <;>
      cases hb : is_banned_reputation (saturating_add p.reputation d) <;>
        cases hp : is_banned_reputation p.reputation <;>
          simp [Peer.apply_reputation, Peer.is_banned, PeerConnectionState.is_connected,
            hs, hb, hp]
  · rcases hs : p.state <;>
      cases hb : is_banned_reputation (saturating_add p.reputation d) <;>
        cases hp : is_banned_reputation p.reputation <;>
          simp [Peer.apply_reputation, Peer.is_banned, PeerConnectionState.is_connected,
            hs, hb, hp]
  · simpa [Peer.is_banned, is_banned_reputation] using h2

/-- A concrete Trusted peer with reputation −60, below the ban threshold. -/
def trustedPeerExample : Peer :=
  { examplePeer with kind := PeerKind.trusted, reputation := -60 }

/-- C7 witness: at a concrete Trusted peer with reputation −60, changing the
kind to Basic changes neither the outcome nor the new reputation, and
`is_banned()` reports true. -/
theorem reputation_engine_kind_blind_witness :
    (({ trustedPeerExample with kind := PeerKind.basic } : Peer).apply_reputation (-5)
        ReputationChangeKind.usefulData).1 =
      (trustedPeerExample.apply_reputation (-5) ReputationChangeKind.usefulData).1
    ∧ (({ trustedPeerExample with kind := PeerKind.basic } : Peer).apply_reputation (-5)
        ReputationChangeKind.usefulData).2.reputation =
      (trustedPeerExample.apply_reputation (-5) ReputationChangeKind.usefulData).2.reputation
    ∧ trustedPeerExample.is_banned = true :=
  ⟨(reputation_engine_kind_blind trustedPeerExample PeerKind.basic (-5)
      ReputationChangeKind.usefulData).1,
   (reputation_engine_kind_blind trustedPeerExample PeerKind.basic (-5)
      ReputationChangeKind.usefulData).2.1,
   (reputation_engine_kind_blind trustedPeerExample PeerKind.basic (-5)
      ReputationChangeKind.usefulData).2.2 rfl (by decide)⟩

/-- C9: `apply_reputation` modifies at most the reputation field and the state
field, the state only when the `DisconnectAndBan` outcome is returned; `addr`,
`fork_id`, `remove_after_disconnect`, `kind`, `backed_off` and
`severe_backoff_counter` are unchanged by every call. -/
theorem apply_reputation_frame (p : Peer) (d : Int) (k : ReputationChangeKind) :
    (p.apply_reputation d k).2.addr = p.addr
    ∧ (p.apply_reputation d k).2.fork_id = p.fork_id
    ∧ (p.apply_reputation d k).2.remove_after_disconnect = p.remove_after_disconnect
    ∧ (p.apply_reputation d k).2.kind = p.kind
    ∧ (p.apply_reputation d k).2.backed_off = p.backed_off
    ∧ (p.apply_reputation d k).2.severe_backoff_counter = p.severe_backoff_counter
    ∧ ((p.apply_reputation d k).2.state ≠ p.state →
        (p.apply_reputation d k).1 = ReputationChangeOutcome.disconnectAndBan) := by
  rcases hs : p.state <;>
    cases hb : is_banned_reputation (saturating_add p.reputation d) <;>
      cases hp : is_banned_reputation p.reputation <;>
        simp [Peer.apply_reputation, Peer.is_banned, PeerConnectionState.is_connected,
          PeerConnectionState.disconnect, hs, hb, hp]

/-- C9 witness: at a concrete connected peer and delta −60, the non-state
fields are unchanged and the state change coincides with the
`DisconnectAndBan` outcome. -/
theorem apply_reputation_frame_witness :
    (examplePeer.apply_reputation (-60) ReputationChangeKind.timeout).2.kind =
      examplePeer.kind
    ∧ (examplePeer.apply_reputation (-60) ReputationChangeKind.timeout).1 =
        ReputationChangeOutcome.disconnectAndBan :=
  ⟨(apply_reputation_frame examplePeer (-60) ReputationChangeKind.timeout).2.2.2.1,
   (apply_reputation_frame examplePeer (-60) ReputationChangeKind.timeout).2.2.2.2.2.2
     (by decide)⟩

/-- After any `apply_reputation` call, a banned peer is never in a connected
state: a downward crossing while connected disconnects synchronously, and a
ban without a session leaves a non-connected state in place. -/
lemma apply_reputation_banned_not_connected (p : Peer) (d : Int)
    (k : ReputationChangeKind) :
    ((p.apply_reputation d k).2).is_banned = true →
      ((p.apply_reputation d k).2).state.is_connected = false := by
  rcases hs : p.state <;>
    cases hb : is_banned_reputation (saturating_add p.reputation d) <;>
      cases hp : is_banned_reputation p.reputation <;>
        simp [Peer.apply_reputation, Peer.is_banned, PeerConnectionState.is_connected,
          PeerConnectionState.disconnect, hs, hb, hp]

/-- The banned-implies-not-connected invariant is preserved along any sequence
of reputation changes. -/
lemma applyAll_banned_not_connected (ds : List (Int × ReputationChangeKind)) :
    ∀ p : Peer, (p.is_banned = true → p.state.is_connected = false) →
      ((p.applyAll ds).is_banned = true → (p.applyAll ds).state.is_connected = false) := by
  induction ds with
  | nil => exact fun p h => h
  | cons hd tl ih =>
      intro p h
      obtain ⟨d, k⟩ := hd
      simp only [Peer.applyAll]
      exact ih _ (apply_reputation_banned_not_connected p d k)

/-- For a peer satisfying the banned-implies-not-connected invariant, a single
`apply_reputation` call emits `Ban` or `DisconnectAndBan` exactly when it
crosses the threshold downwards, and a call that keeps the score below the
threshold returns `None`. -/
lemma apply_reputation_ban_iff (p : Peer) (d : Int) (k : ReputationChangeKind)
    (h : p.is_banned = true → p.state.is_connected = false) :
    (((p.apply_reputation d k).1 = ReputationChangeOutcome.ban ∨
      (p.apply_reputation d k).1 = ReputationChangeOutcome.disconnectAndBan) ↔
      (p.is_banned = false ∧ (p.apply_reputation d k).2.is_banned = true))
    ∧ (p.is_banned = true → (p.apply_reputation d k).2.is_banned = true →
        (p.apply_reputation d k).1 = ReputationChangeOutcome.none) := by
  rcases hs : p.state <;>
    cases hb : is_banned_reputation (saturating_add p.reputation d) <;>
      cases hp : is_banned_reputation p.reputation <;>
        simp_all [Peer.apply_reputation, Peer.is_banned, PeerConnectionState.is_connected,
          PeerConnectionState.disconnect]

/-- C2: along any sequence of `apply_reputation` calls from a peer whose ban
status and connection state are consistent (banned implies not connected), a
call emits `Ban` or `DisconnectAndBan` exactly when it is the single downward
threshold crossing (previous score at/above, new score below), and every
subsequent delta that keeps the score below the threshold yields `None`. The
call in question sits after an arbitrary prefix `ds` of the sequence. -/
theorem apply_reputation_single_ban_emission (p0 : Peer)
    (h : p0.is_banned = true → p0.state.is_connected = false)
    (ds : List (Int × ReputationChangeKind)) (d : Int) (k : ReputationChangeKind) :
    ((((p0.applyAll ds).apply_reputation d k).1 = ReputationChangeOutcome.ban ∨
      ((p0.applyAll ds).apply_reputation d k).1 = ReputationChangeOutcome.disconnectAndBan) ↔
      ((p0.applyAll ds).is_banned = false ∧
       ((p0.applyAll ds).apply_reputation d k).2.is_banned = true))
    ∧ ((p0.applyAll ds).is_banned = true →
        ((p0.applyAll ds).apply_reputation d k).2.is_banned = true →
        ((p0.applyAll ds).apply_reputation d k).1 = ReputationChangeOutcome.none) :=
  apply_reputation_ban_iff (p0.applyAll ds) d k
    (applyAll_banned_not_connected ds p0 h)

/-- C2 witness: starting from a fresh peer at reputation 0, the prefix delta
−60 is the single downward crossing (it emits `Ban` there), and the subsequent
delta −5, which keeps the score below the threshold, yields `None`. -/
theorem apply_reputation_single_ban_emission_witness :
    ((Peer.new ⟨0⟩).is_banned = true → (Peer.new ⟨0⟩).state.is_connected = false)
    ∧ (((((Peer.new ⟨0⟩).applyAll [((-60 : Int), ReputationChangeKind.timeout)]).apply_reputation
          (-5) ReputationChangeKind.badProtocol).1 = ReputationChangeOutcome.ban ∨
        (((Peer.new ⟨0⟩).applyAll [((-60 : Int), ReputationChangeKind.timeout)]).apply_reputation
          (-5) ReputationChangeKind.badProtocol).1 = ReputationChangeOutcome.disconnectAndBan) ↔
        (((Peer.new ⟨0⟩).applyAll [((-60 : Int), ReputationChangeKind.timeout)]).is_banned = false ∧
         (((Peer.new ⟨0⟩).applyAll [((-60 : Int), ReputationChangeKind.timeout)]).apply_reputation
           (-5) ReputationChangeKind.badProtocol).2.is_banned = true))
    ∧ (((Peer.new ⟨0⟩).applyAll [((-60 : Int), ReputationChangeKind.timeout)]).is_banned = true →
        (((Peer.new ⟨0⟩).applyAll [((-60 : Int), ReputationChangeKind.timeout)]).apply_reputation
          (-5) ReputationChangeKind.badProtocol).2.is_banned = true →
        (((Peer.new ⟨0⟩).applyAll [((-60 : Int), ReputationChangeKind.timeout)]).apply_reputation
          (-5) ReputationChangeKind.badProtocol).1 = ReputationChangeOutcome.none) :=
  ⟨by decide,
   (apply_reputation_single_ban_emission (Peer.new ⟨0⟩) (by decide)
      [((-60 : Int), ReputationChangeKind.timeout)] (-5) ReputationChangeKind.badProtocol).1,
   (apply_reputation_single_ban_emission (Peer.new ⟨0⟩) (by decide)
      [((-60 : Int), ReputationChangeKind.timeout)] (-5) ReputationChangeKind.badProtocol).2⟩

/-- C10: the signal-kind argument of `apply_reputation` has no effect on
behaviour: any two kinds yield the same outcome and the same resulting peer
state (the kind is consumed only by trace logging in the source). -/
theorem apply_reputation_kind_irrelevant (p : Peer) (d : Int)
    (k1 k2 : ReputationChangeKind) :
    p.apply_reputation d k1 = p.apply_reputation d k2 := rfl

end RethPeers
